import Mathlib

/-!
Verification of the pipeline-verb mechanism from `notebooks/pydatapipelines.ipynb`.

The notebook defines four pieces of infrastructure (`PipeVerb`, `pipeverb`,
`make_pipesource`, `singledispatch_pipeverb`) and demonstration verbs
(`append_col`, `groupby`, `summarize_mean`).  This file gives a shallow
embedding of that code: Python's dynamic values become an inductive `Value`
type, Python classes become an explicit `PyClass` record holding an optional
`__rshift__` slot, `functools.singledispatch` becomes an explicit
`Dispatcher` with a registry keyed by `PyType` and looked up along the
method-resolution order, and CPython's binary-operator protocol for `>>`
(left operand's `__rshift__` first, then the right operand's reflected
`__rrshift__`) becomes `pyRshift`.  Behavior of third-party code that the
notebook calls (CPython's operator protocol, `int.__rshift__`,
`functools.singledispatch`, and the pandas operations used by the concrete
verb implementations) is modelled explicitly and marked as such in doc
comments; the notebook's own definitions are translated line by line.
-/

namespace PyPipes

/-- Python types relevant to the notebook.  `dataFrameGroupBy` is the exact
runtime type produced by `pd.DataFrame.groupby` in the notebook; it is a
subclass of `groupBy` (`pd.core.groupby.GroupBy`). -/
inductive PyType where
  | int
  | bool
  | str
  | list
  | dataFrame
  | groupBy
  | dataFrameGroupBy
  | series
  | object
deriving DecidableEq

/-- Method-resolution order of each modelled type, as in CPython: the exact
type first, then its base classes, ending at `object`.  (`bool` subclasses
`int`; `dataFrameGroupBy` subclasses `groupBy`.  Intermediate pandas base
classes carry no registrations in the notebook and are omitted, which leaves
every dispatch outcome unchanged.) -/
def mro : PyType → List PyType
  | .int => [.int, .object]
  | .bool => [.bool, .int, .object]
  | .str => [.str, .object]
  | .list => [.list, .object]
  | .dataFrame => [.dataFrame, .object]
  | .groupBy => [.groupBy, .object]
  | .dataFrameGroupBy => [.dataFrameGroupBy, .groupBy, .object]
  | .series => [.series, .object]
  | .object => [.object]

/-- The string produced for a type by Python's `"%s" % type(input)`
formatting, e.g. `<class 'int'>`.  Used by the notebook's error messages. -/
def PyType.typeStr : PyType → String
  | .int => "<class \x27int\x27>"
  | .bool => "<class \x27bool\x27>"
  | .str => "<class \x27str\x27>"
  | .list => "<class \x27list\x27>"
  | .dataFrame => "<class \x27pandas.core.frame.DataFrame\x27>"
  | .groupBy => "<class \x27pandas.core.groupby.GroupBy\x27>"
  | .dataFrameGroupBy => "<class \x27pandas.core.groupby.DataFrameGroupBy\x27>"
  | .series => "<class \x27pandas.core.series.Series\x27>"
  | .object => "<class \x27object\x27>"

/-- A pandas DataFrame, modelled column-oriented: a list of named columns of
rational values (external library; only the operations the notebook uses are
modelled). -/
structure DataFrame where
  cols : List (String × List Rat)
deriving DecidableEq

/-- A pandas GroupBy object as produced by `df.groupby(key)`: it remembers
the frame and the grouping column (external library model). -/
structure GroupBy where
  df : DataFrame
  key : String
deriving DecidableEq

/-- Python runtime values that appear in the notebook's examples. -/
inductive Value where
  | int (n : Int)
  | bool (b : Bool)
  | str (s : String)
  | list (xs : List Value)
  | df (d : DataFrame)
  | gb (g : GroupBy)
  | series (s : List (String × Rat))

/-- The exact runtime type of a value.  `pd.DataFrame.groupby` returns a
`DataFrameGroupBy` instance, so `gb` values have exact type
`dataFrameGroupBy`, a proper subclass of `groupBy`. -/
def typeOf : Value → PyType
  | .int _ => .int
  | .bool _ => .bool
  | .str _ => .str
  | .list _ => .list
  | .df _ => .dataFrame
  | .gb _ => .dataFrameGroupBy
  | .series _ => .series

/-- Python exceptions raised by the modelled code. -/
inductive PyErr where
  | notImplementedError (msg : String)
  | typeError (msg : String)
  | valueError (msg : String)
deriving DecidableEq

/-- A Python callable in the verb calling convention: first the piped value,
then the positional and the named arguments supplied at verb-construction
time. -/
abbrev Args := List Value

/-- Named arguments of a call. -/
abbrev Kwargs := List (String × Value)

/-- The type of the transformation functions wrapped by pipe verbs. -/
abbrev PyFunc := Value → Args → Kwargs → Except PyErr Value

/-- Python argument binding for one optional parameter: positional argument
at index `idx` wins, otherwise the named argument `name`, otherwise the
declared default `dflt` (models CPython call binding for the signatures used
in the notebook). -/
def lookupKw : Kwargs → String → Option Value
  | [], _ => none
  | (n, v) :: rest, name => if n = name then some v else lookupKw rest name

def getArg (args : Args) (kwargs : Kwargs) (idx : Nat) (name : String) (dflt : Value) : Value :=
  match args.get? idx with
  | some v => v
  | none =>
    match lookupKw kwargs name with
    | some v => v
    | none => dflt

/-- `class PipeVerb`: object which represents a part of a pipeline.  Holds
the wrapped transformation and the arguments captured at construction. -/
structure PipeVerb where
  pipe_func : PyFunc
  args : Args
  kwargs : Kwargs

/-- `PipeVerb.__rrshift__(self, input)`:
`return self.pipe_func(input, *self.args, **self.kwargs)`. -/
def PipeVerb.rrshift (pv : PipeVerb) (input : Value) : Except PyErr Value :=
  pv.pipe_func input pv.args pv.kwargs

/-- `functools.singledispatch` (standard library, modelled): a dispatcher
holds the default implementation and a registry mapping types to
specializations.  Re-registering a type overwrites (dict semantics): newer
entries are consed on and lookup takes the first hit. -/
structure Dispatcher where
  name : String
  dflt : PyFunc
  registry : List (PyType × PyFunc)

/-- Registry lookup for one exact type key (a Python dict lookup). -/
def findReg : List (PyType × PyFunc) → PyType → Option PyFunc
  | [], _ => none
  | (t, f) :: rest, key => if t = key then some f else findReg rest key

/-- `singledispatch(func)`: a fresh dispatcher with empty registry whose
default implementation is `func`. -/
def singledispatch (name : String) (f : PyFunc) : Dispatcher :=
  { name := name, dflt := f, registry := [] }

/-- `dispatcher.register(T)(impl)`: associate `impl` with type `T`. -/
def Dispatcher.register (d : Dispatcher) (t : PyType) (f : PyFunc) : Dispatcher :=
  { d with registry := (t, f) :: d.registry }

/-- The implementation selected for a method-resolution order: the first
class in the list with a registry entry, else the default (models
`functools._find_impl` for single-inheritance chains). -/
def firstImpl (reg : List (PyType × PyFunc)) (d : PyFunc) : List PyType → PyFunc
  | [] => d
  | t :: ts =>
    match findReg reg t with
    | some f => f
    | none => firstImpl reg d ts

/-- `dispatcher.dispatch(cls)`: walk the MRO of `cls`, first registration
wins, default if none is found. -/
def Dispatcher.dispatch (d : Dispatcher) (t : PyType) : PyFunc :=
  firstImpl d.registry d.dflt (mro t)

/-- Calling a singledispatch function: dispatch on the exact runtime type of
the first argument, then run the selected implementation. -/
def Dispatcher.call (d : Dispatcher) : PyFunc :=
  fun v args kwargs => d.dispatch (typeOf v) v args kwargs

/-- What `pipeverb` receives: either a plain function or a singledispatch
function (the latter has a `register` attribute, `hasattr(func, 'register')`). -/
inductive VerbSource where
  | plain (f : PyFunc)
  | dispatched (d : Dispatcher)

/-- The underlying callable of a verb source. -/
def VerbSource.func : VerbSource → PyFunc
  | .plain f => f
  | .dispatched d => d.call

/-- The result of the `pipeverb` decorator: the decorated callable builds a
`PipeVerb` from its call arguments; `register` is the forwarded
specialization registrar when the wrapped function has one, absent
otherwise. -/
structure Decorated where
  call : Args → Kwargs → PipeVerb
  register : Option (PyType → PyFunc → Dispatcher)

/-- `pipeverb(func)`: decorator to convert a function to a pipeline verb.
`decorated(*args, **kwargs)` returns `PipeVerb(func, *args, **kwargs)`; if
`func` has a `register` attribute it is exposed on the decorated callable as
well. -/
def pipeverb (s : VerbSource) : Decorated :=
  { call := fun args kwargs => { pipe_func := s.func, args := args, kwargs := kwargs },
    register :=
      match s with
      | .plain _ => none
      | .dispatched d => some d.register }

/-- `singledispatch_pipeverb(func)`:
`return pipeverb(singledispatch(func))`. -/
def singledispatch_pipeverb (name : String) (f : PyFunc) : Decorated :=
  pipeverb (.dispatched (singledispatch name f))

/-- Outcome of a Python binary-operator slot: a value, the `NotImplemented`
sentinel, or a raised exception. -/
inductive RshiftOutcome where
  | value (v : Value)
  | notImpl
  | error (e : PyErr)

/-- The right operand of `>>`: a plain value or a `PipeVerb` instance
(`PipeVerb` objects are what `isinstance(other, PipeVerb)` tests for). -/
inductive Operand where
  | val (v : Value)
  | verb (pv : PipeVerb)

/-- A class's `__rshift__` slot together with its `pipeoperator` function
attribute (absent attribute reads as `False` via
`getattr(cls.__rshift__, 'pipeoperator', False)`). -/
structure RshiftSlot where
  fn : Value → Operand → RshiftOutcome
  pipeoperator : Bool

/-- The per-class state `make_pipesource` reads and writes: the optional
`__rshift__` slot and the optional `__orig_rshift__` backup. -/
structure PyClass where
  rshift : Option RshiftSlot
  orig_rshift : Option (Value → Operand → RshiftOutcome)

/-- `make_pipesource(cls)`: enables a class to function as a pipe source.
If the class has a `__rshift__` whose `pipeoperator` flag is not set, the
slot is replaced by a wrapper that sends `PipeVerb` right operands to
`other.__rrshift__(self)` and everything else to the saved original
(`self.__orig_rshift__(other)`, backed up before patching); the new slot
carries `pipeoperator = True`.  Otherwise the class is left untouched. -/
def make_pipesource (cls : PyClass) : PyClass :=
  match cls.rshift with
  | none => cls
  | some slot =>
    if slot.pipeoperator then cls
    else
      { rshift := some
          { fn := fun self other =>
              match other with
              | .verb pv =>
                match pv.rrshift self with
                | .ok v => .value v
                | .error e => .error e
              | .val _ => slot.fn self other,
            pipeoperator := true },
        orig_rshift := some slot.fn }

/-- CPython fallback when the left operand's `__rshift__` is absent or
returned `NotImplemented`: try the right operand's `__rrshift__`.
`PipeVerb` defines one; the plain values in this development do not define a
`__rrshift__` that could accept these left operands, so that branch raises
`TypeError` (models the interpreter's operator protocol). -/
def reflectedRshift (self : Value) (other : Operand) : Except PyErr Value :=
  match other with
  | .verb pv => pv.rrshift self
  | .val _ => .error (.typeError "unsupported operand type(s) for >>")

/-- Evaluation of `self >> other`, CPython's binary-operator protocol
(modelled): the left class's `__rshift__` slot runs first; a raised
exception propagates; a `NotImplemented` result or a missing slot falls back
to the right operand's reflected operation. -/
def pyRshift (cls : PyClass) (self : Value) (other : Operand) : Except PyErr Value :=
  match cls.rshift with
  | some slot =>
    match slot.fn self other with
    | .value v => .ok v
    | .error e => .error e
    | .notImpl => reflectedRshift self other
  | none => reflectedRshift self other

/-- Coercion used by `int.__rshift__` (`bool` is an `int` subclass). -/
def asInt : Value → Option Int
  | .int n => some n
  | .bool b => some (if b then 1 else 0)
  | _ => none

/-- `int.__rshift__` (built-in, modelled): arithmetic right shift between
integers (floor division by a power of two), `ValueError` on a negative
shift count, `NotImplemented` on any non-integer operand — in particular on
`PipeVerb` operands, which is what lets `1 >> append_col()` reach
`PipeVerb.__rrshift__`. -/
def intRshiftFn : Value → Operand → RshiftOutcome :=
  fun self other =>
    match other with
    | .verb _ => .notImpl
    | .val w =>
      match asInt self, asInt w with
      | some a, some b =>
        if 0 ≤ b then .value (.int (a / 2 ^ b.toNat))
        else .error (.valueError "negative shift count")
      | _, _ => .notImpl

/-- The class of Python `int` (and, via inheritance, the `__rshift__` seen
by `bool` instances): it has a `__rshift__`, with no `pipeoperator` flag. -/
def intClass : PyClass :=
  { rshift := some { fn := intRshiftFn, pipeoperator := false }, orig_rshift := none }

/-- A class defining no `__rshift__` of its own (`list`, `str`, pandas
containers): `hasattr(cls, '__rshift__')` is false. -/
def noRshiftClass : PyClass :=
  { rshift := none, orig_rshift := none }

/-- The notebook runs `make_pipesource(pd.DataFrame)`.  `pd.DataFrame`
defines no `__rshift__`, so the call finds nothing to patch and the class
stays as it was. -/
def dataFrameClass : PyClass :=
  make_pipesource noRshiftClass

/-- The class of each value's exact type, as consulted by the `>>`
protocol (for `bool` the slot found along the MRO is `int.__rshift__`). -/
def classOf : Value → PyClass
  | .int _ => intClass
  | .bool _ => intClass
  | .df _ => dataFrameClass
  | _ => noRshiftClass

/-- Full evaluation of the pipe expression `a >> o` as the interpreter
performs it: the operator protocol consulted on `a`'s class. -/
def pipeOp (a : Value) (o : Operand) : Except PyErr Value :=
  pyRshift (classOf a) a o

/-- Mean of a rational column (pandas, modelled). -/
def listMean (xs : List Rat) : Rat :=
  xs.sum / (xs.length : Rat)

/-- `df.mean()` (pandas, modelled): the per-column means, as a Series. -/
def DataFrame.mean (d : DataFrame) : List (String × Rat) :=
  d.cols.map fun c => (c.fst, listMean c.snd)

/-- The values of a named column (pandas, modelled). -/
def DataFrame.colVals (d : DataFrame) (name : String) : List Rat :=
  match d.cols.find? (fun c => c.fst == name) with
  | some c => c.snd
  | none => []

/-- Number of rows (pandas, modelled). -/
def DataFrame.nrows (d : DataFrame) : Nat :=
  match d.cols with
  | [] => 0
  | c :: _ => c.snd.length

/-- `copy["X"] = x` on a fresh copy (pandas, modelled): replace the column
if present, else append it, broadcasting the scalar. -/
def DataFrame.setCol (d : DataFrame) (name : String) (x : Rat) : DataFrame :=
  if (d.cols.find? (fun c => c.fst == name)).isSome then
    ⟨d.cols.map fun c => if c.fst == name then (c.fst, List.replicate d.nrows x) else c⟩
  else
    ⟨d.cols ++ [(name, List.replicate d.nrows x)]⟩

/-- First-appearance deduplication of the grouping keys (pandas, modelled). -/
def dedupFirst : List Rat → List Rat
  | [] => []
  | x :: xs => x :: (dedupFirst xs).filter fun y => decide (y ≠ x)

/-- The entries of `vals` at the rows where the key column equals `k`. -/
def selectWhere (keys vals : List Rat) (k : Rat) : List Rat :=
  ((keys.zip vals).filter fun p => decide (p.fst = k)).map Prod.snd

/-- `grouped.mean()` (pandas, modelled): per group, the mean of every
non-key column; the key column carries the group labels. -/
def GroupBy.mean (g : GroupBy) : DataFrame :=
  let keyVals := g.df.colVals g.key
  let keys := dedupFirst keyVals
  let others := g.df.cols.filter fun c => decide (c.fst ≠ g.key)
  ⟨(g.key, keys) ::
    others.map fun c => (c.fst, keys.map fun k => listMean (selectWhere keyVals c.snd k))⟩

/-- Scalar conversion used when a piped-in argument is stored into a
rational column (the notebook only ever stores integers). -/
def valueToRat : Value → Rat
  | .int n => (n : Rat)
  | .bool b => if b then 1 else 0
  | _ => 0

/-- The generic `append_col(input, x=1)`: raises
`NotImplementedError("append_col is not implemented for data of type %s" % type(input))`. -/
def append_col_default : PyFunc :=
  fun input _ _ =>
    .error (.notImplementedError
      ("append_col is not implemented for data of type " ++ (typeOf input).typeStr))

/-- `append_col` for `pd.DataFrame`: copy the frame and set column "X" to
`x` (named `append_col_df` in the notebook). -/
def append_col_df : PyFunc :=
  fun input args kwargs =>
    let x := getArg args kwargs 0 "x" (.int 1)
    match input with
    | .df d => .ok (.df (d.setCol "X" (valueToRat x)))
    | _ => .error (.typeError "append_col_df expects a DataFrame")

/-- `append_col` for `list`: `return input + [x]` (the notebook registers
this under the reused name `append_col_df`; named `append_col_list` here for
clarity). -/
def append_col_list : PyFunc :=
  fun input args kwargs =>
    let x := getArg args kwargs 0 "x" (.int 1)
    match input with
    | .list xs => .ok (.list (xs ++ [x]))
    | _ => .error (.typeError "can only concatenate list")

/-- The `append_col` singledispatch function after both registrations
(`@append_col.register(pd.DataFrame)`, then `@append_col.register(list)`). -/
def append_col_ : Dispatcher :=
  ((singledispatch "append_col" append_col_default).register .dataFrame append_col_df).register
    .list append_col_list

/-- The decorated `append_col` pipe verb (`@singledispatch_pipeverb`). -/
def append_col : Decorated :=
  pipeverb (.dispatched append_col_)

/-- The generic `groupby(input, columns)`: raises `NotImplementedError`. -/
def groupby_default : PyFunc :=
  fun input _ _ =>
    .error (.notImplementedError
      ("groupby is not implemented for data of type " ++ (typeOf input).typeStr))

/-- `groupby` for `pd.DataFrame`: `return input.groupby(columns)`. -/
def groupby_DataFrame : PyFunc :=
  fun input args kwargs =>
    let columns := getArg args kwargs 0 "columns" (.str "")
    match input, columns with
    | .df d, .str c => .ok (.gb { df := d, key := c })
    | _, _ => .error (.typeError "groupby_DataFrame expects a DataFrame and a column name")

/-- The `groupby` singledispatch function after registration. -/
def groupby_ : Dispatcher :=
  (singledispatch "groupby" groupby_default).register .dataFrame groupby_DataFrame

/-- The decorated `groupby` pipe verb. -/
def groupby : Decorated :=
  pipeverb (.dispatched groupby_)

/-- The generic `summarize_mean(input)`: raises `NotImplementedError`. -/
def summarize_mean_default : PyFunc :=
  fun input _ _ =>
    .error (.notImplementedError
      ("summarize_mean is not implemented for data of type " ++ (typeOf input).typeStr))

/-- `summarize_mean` for `pd.DataFrame`: `return input.mean()`. -/
def summarize_mean_DataFrame : PyFunc :=
  fun input _ _ =>
    match input with
    | .df d => .ok (.series d.mean)
    | _ => .error (.typeError "summarize_mean_DataFrame expects a DataFrame")

/-- `summarize_mean` for `pd.core.groupby.GroupBy`: `return input.mean()`.
Registered for the base class `GroupBy`, not for the exact runtime type
`DataFrameGroupBy` of grouped frames. -/
def summarize_mean_GroupBy : PyFunc :=
  fun input _ _ =>
    match input with
    | .gb g => .ok (.df g.mean)
    | _ => .error (.typeError "summarize_mean_GroupBy expects a GroupBy")

/-- The `summarize_mean` singledispatch function after both registrations. -/
def summarize_mean_ : Dispatcher :=
  ((singledispatch "summarize_mean" summarize_mean_default).register .dataFrame
      summarize_mean_DataFrame).register
    .groupBy summarize_mean_GroupBy

/-- The decorated `summarize_mean` pipe verb. -/
def summarize_mean : Decorated :=
  pipeverb (.dispatched summarize_mean_)

/-- The notebook's demonstration frame
`pd.DataFrame({"a" : [1, 2, 3, 4], "b": [1, 1, 2, 2]})`. -/
def demoDF : DataFrame :=
  ⟨[("a", [1, 2, 3, 4]), ("b", [1, 1, 2, 2])]⟩

/-- The grouped value `demoDF.groupby("b")`. -/
def demoGB : GroupBy :=
  { df := demoDF, key := "b" }

end PyPipes

/-! ## General lemmas about the embedding -/

namespace PyPipes

/-- Every class that actually occurs as the class of a value in this
development routes a `PipeVerb` right operand of `>>` to the wrapper's
reflected operation: `int` (and `bool`) return `NotImplemented` from their
own slot, and the remaining classes have no `__rshift__` slot at all. -/
theorem pipeOp_verb (v : Value) (pv : PipeVerb) :
    pipeOp v (.verb pv) = pv.rrshift v := by
  cases v <;> rfl

/-- A registration for the exact type wins the dispatch: the exact type
heads its own MRO. -/
theorem dispatch_exact (d : Dispatcher) (t : PyType) (f : PyFunc)
    (h : findReg d.registry t = some f) : d.dispatch t = f := by
  cases t <;> simp [Dispatcher.dispatch, mro, firstImpl, h]

/-- If no type of a list is registered, the scan returns the default. -/
theorem firstImpl_none (reg : List (PyType × PyFunc)) (d : PyFunc) :
    ∀ l : List PyType, (∀ t ∈ l, findReg reg t = none) →
      firstImpl reg d l = d := by
  intro l
  induction l with
  | nil => intro _; rfl
  | cons t ts ih =>
    intro h
    have ht := h t (List.mem_cons_self t ts)
    simp [firstImpl, ht]
    exact ih fun u hu => h u (List.mem_cons_of_mem t hu)

/-- The scan returns the implementation of the first registered type. -/
theorem firstImpl_append (reg : List (PyType × PyFunc)) (d : PyFunc) (tw : PyType)
    (l₂ : List PyType) (f : PyFunc) (hf : findReg reg tw = some f) :
    ∀ l₁ : List PyType, (∀ u ∈ l₁, findReg reg u = none) →
      firstImpl reg d (l₁ ++ tw :: l₂) = f := by
  intro l₁
  induction l₁ with
  | nil => intro _; simp [firstImpl, hf]
  | cons u us ih =>
    intro h
    have hu := h u (List.mem_cons_self u us)
    simp only [List.cons_append]
    simp [firstImpl, hu]
    exact ih fun w hw => h w (List.mem_cons_of_mem u hw)

end PyPipes

/-! ## Claim theorems -/

namespace PyPipes

/-- C1: for a pipe verb whose underlying singledispatch function has a
specialization registered for type `T`, and for an input value of exact type
`T`, evaluating `value >> verb(args, kwargs)` yields exactly
`specialization(value, args, kwargs)`. -/
theorem pipe_runs_registered_specialization (d : Dispatcher) (t : PyType) (f : PyFunc)
    (v : Value) (args : Args) (kwargs : Kwargs)
    (hreg : findReg d.registry t = some f) (hty : typeOf v = t) :
    pipeOp v (.verb ((pipeverb (.dispatched d)).call args kwargs)) = f v args kwargs := by
  subst hty
  rw [pipeOp_verb]
  have hd : d.dispatch (typeOf v) = f := dispatch_exact d (typeOf v) f hreg
  show d.call v args kwargs = f v args kwargs
  show d.dispatch (typeOf v) v args kwargs = f v args kwargs
  rw [hd]

/-- Witness for C1: `[1, 2] >> append_col()` runs the `list` specialization
with the same arguments. -/
theorem pipe_runs_registered_specialization_witness :
    findReg append_col_.registry PyType.list = some append_col_list ∧
    typeOf (.list [.int 1, .int 2]) = PyType.list ∧
    pipeOp (.list [.int 1, .int 2]) (.verb (append_col.call [] [])) =
      append_col_list (.list [.int 1, .int 2]) [] [] :=
  ⟨rfl, rfl,
    pipe_runs_registered_specialization append_col_ PyType.list append_col_list
      (.list [.int 1, .int 2]) [] [] rfl rfl⟩

/-- C6: a `PipeVerb` built from transformation `f`, positional arguments and
named arguments applies to an input `v` as exactly `f v args kwargs`; the
result — including any raised exception in the `Except.error` case — is
passed through unchanged, and the wrapper adds nothing else. -/
theorem pipeverb_applies_wrapped_function (f : PyFunc) (args : Args) (kwargs : Kwargs)
    (v : Value) :
    PipeVerb.rrshift { pipe_func := f, args := args, kwargs := kwargs } v =
      f v args kwargs := rfl

/-- C7: calling a decorated verb never executes the wrapped transformation —
it only builds a `PipeVerb` capturing the transformation and exactly the
supplied arguments; and the decorated callable exposes the specialization
registrar exactly when the wrapped function has one. -/
theorem pipeverb_defers_execution (s : VerbSource) (args : Args) (kwargs : Kwargs) :
    (pipeverb s).call args kwargs = { pipe_func := s.func, args := args, kwargs := kwargs } ∧
    (∀ d : Dispatcher, (pipeverb (.dispatched d)).register = some d.register) ∧
    (∀ f : PyFunc, (pipeverb (.plain f)).register = none) :=
  ⟨rfl, fun _ => rfl, fun _ => rfl⟩

/-- C9: `[1, 2] >> append_col()` evaluates to `[1, 2, 1]` (default `x = 1`)
and `[1, 2] >> append_col(x=5)` evaluates to `[1, 2, 5]`; the registered
implementation builds a new list (`input + [x]`), so the input value is
untouched — the embedding is pure and both results share the unchanged
prefix `[1, 2]`. -/
theorem append_col_list_examples :
    pipeOp (.list [.int 1, .int 2]) (.verb (append_col.call [] [])) =
      .ok (.list [.int 1, .int 2, .int 1]) ∧
    pipeOp (.list [.int 1, .int 2]) (.verb (append_col.call [] [("x", .int 5)])) =
      .ok (.list [.int 1, .int 2, .int 5]) :=
  ⟨rfl, rfl⟩

/-- C8: for every tabular value `t`, the chained pipeline
`t >> groupby("b") >> summarize_mean()` — evaluated left to right, each
stage consuming the previous stage's output — equals the directly nested
calls `summarize_mean(groupby(t, "b"))` on the underlying singledispatch
functions. -/
theorem pipeline_chain_equals_nested_calls (t : DataFrame) :
    (do
      let g ← pipeOp (.df t) (.verb (groupby.call [.str "b"] []))
      pipeOp g (.verb (summarize_mean.call [] []))) =
    (do
      let g ← groupby_.call (.df t) [.str "b"] []
      summarize_mean_.call g [] []) := rfl

end PyPipes

namespace PyPipes

/-- C3: `make_pipesource` is idempotent — the second invocation finds the
`pipeoperator` marker set by the first (or finds nothing to patch) and
returns the class unchanged, so the class state, and with it the pipe
behavior for both `PipeVerb` and plain right operands, is exactly that of a
single invocation. -/
theorem make_pipesource_idempotent (cls : PyClass) :
    make_pipesource (make_pipesource cls) = make_pipesource cls := by
  rcases cls with ⟨rs, org⟩
  cases rs with
  | none => rfl
  | some slot =>
    rcases slot with ⟨fn, flag⟩
    cases flag
    · rfl
    · rfl

/-- C4: for a class with a pre-existing `__rshift__` slot, the `>>`
evaluation after `make_pipesource` agrees with the pre-patch evaluation on
every right operand that is not a `PipeVerb`: the patched slot forwards such
operands to the saved original operation. -/
theorem patched_rshift_preserves_original (cls : PyClass) (slot : RshiftSlot)
    (self w : Value) (h : cls.rshift = some slot) :
    pyRshift (make_pipesource cls) self (.val w) = pyRshift cls self (.val w) := by
  rcases cls with ⟨rs, org⟩
  cases rs with
  | none => exact Option.noConfusion h
  | some slot2 =>
    rcases slot2 with ⟨fn, flag⟩
    cases flag
    · rfl
    · rfl

/-- Witness for C4: the patched `int` class still shifts `8 >> 2` exactly as
the original `int.__rshift__` does. -/
theorem patched_rshift_preserves_original_witness :
    intClass.rshift = some { fn := intRshiftFn, pipeoperator := false } ∧
    pyRshift (make_pipesource intClass) (.int 8) (.val (.int 2)) =
      pyRshift intClass (.int 8) (.val (.int 2)) :=
  ⟨rfl,
    patched_rshift_preserves_original intClass { fn := intRshiftFn, pipeoperator := false }
      (.int 8) (.int 2) rfl⟩

/-- C10: on a class with no `__rshift__` of its own, `make_pipesource` is a
no-op — no slot is installed, no backup and no marker are stored — yet
`value >> wrapper` with a `PipeVerb` right-hand side still applies the
wrapped transformation to the value, through the wrapper's reflected
`__rrshift__`. -/
theorem no_rshift_class_unchanged_and_pipes (cls : PyClass) (h : cls.rshift = none)
    (v : Value) (pv : PipeVerb) :
    make_pipesource cls = cls ∧ pyRshift cls v (.verb pv) = pv.rrshift v := by
  rcases cls with ⟨rs, org⟩
  cases rs with
  | none => exact ⟨rfl, rfl⟩
  | some slot => exact Option.noConfusion h

/-- Witness for C10: `list` has no `__rshift__`; `make_pipesource` leaves it
untouched and `[1, 2] >> append_col()` is served by the wrapper's reflected
operation. -/
theorem no_rshift_class_unchanged_and_pipes_witness :
    noRshiftClass.rshift = none ∧
    make_pipesource noRshiftClass = noRshiftClass ∧
    pyRshift noRshiftClass (.list [.int 1, .int 2]) (.verb (append_col.call [] [])) =
      PipeVerb.rrshift (append_col.call [] []) (.list [.int 1, .int 2]) := by
  have h := no_rshift_class_unchanged_and_pipes noRshiftClass rfl
    (.list [.int 1, .int 2]) (append_col.call [] [])
  exact ⟨rfl, h.1, h.2⟩

end PyPipes

namespace PyPipes

/-- C2 counterexample: `1 >> append_col()` does not raise the message
claimed by the spec.  Python's `"%s" % type(input)` renders the type as
`<class 'int'>`, so the raised message is
`append_col is not implemented for data of type <class 'int'>`, not
`... of type int`. -/
theorem append_col_int_message_not_as_claimed :
    pipeOp (.int 1) (.verb (append_col.call [] [])) ≠
      .error (.notImplementedError
        "append_col is not implemented for data of type int") := by
  intro h
  rw [show pipeOp (.int 1) (.verb (append_col.call [] [])) =
      .error (.notImplementedError
        "append_col is not implemented for data of type <class \x27int\x27>") from rfl] at h
  injection h with h1
  injection h1 with h2
  exact absurd h2 (by decide)

/-- C2 (amended): for an input value none of whose MRO classes carries an
`append_col` registration, `value >> append_col()` raises
`NotImplementedError` whose message names the verb and the offending type as
Python renders it (`<class '...'>`). -/
theorem append_col_unregistered_raises (v : Value)
    (h : ∀ t ∈ mro (typeOf v), findReg append_col_.registry t = none) :
    pipeOp v (.verb (append_col.call [] [])) =
      .error (.notImplementedError
        ("append_col is not implemented for data of type " ++ (typeOf v).typeStr)) := by
  rw [pipeOp_verb]
  show append_col_.call v [] [] = _
  show append_col_.dispatch (typeOf v) v [] [] = _
  have hd : append_col_.dispatch (typeOf v) = append_col_.dflt :=
    firstImpl_none append_col_.registry append_col_.dflt (mro (typeOf v)) h
  rw [hd]
  rfl

/-- Witness for the amended C2: the integer `1` has no `append_col`
registration anywhere on its MRO, and the pipe raises the
`<class 'int'>`-formatted message. -/
theorem append_col_unregistered_raises_witness :
    (∀ t ∈ mro (typeOf (Value.int 1)), findReg append_col_.registry t = none) ∧
    pipeOp (.int 1) (.verb (append_col.call [] [])) =
      .error (.notImplementedError
        ("append_col is not implemented for data of type " ++
          (typeOf (Value.int 1)).typeStr)) := by
  have h : ∀ t ∈ mro (typeOf (Value.int 1)), findReg append_col_.registry t = none := by
    intro t ht
    simp [mro, typeOf] at ht
    rcases ht with rfl | rfl <;> rfl
  exact ⟨h, append_col_unregistered_raises (.int 1) h⟩

/-- C5 counterexample: dispatch is not restricted to the exact runtime type.
The notebook's grouped frames have exact type `DataFrameGroupBy`, which has
no registration; `summarize_mean` nevertheless runs the specialization
registered for the proper superclass `GroupBy`, not the default — the
notebook's own `df >> groupby("b") >> summarize_mean()` demo depends on
exactly this superclass fallback. -/
theorem summarize_mean_superclass_dispatch :
    findReg summarize_mean_.registry (typeOf (Value.gb demoGB)) = none ∧
    summarize_mean_.call (.gb demoGB) [] [] = summarize_mean_GroupBy (.gb demoGB) [] [] ∧
    summarize_mean_.call (.gb demoGB) [] [] ≠ summarize_mean_default (.gb demoGB) [] [] := by
  refine ⟨rfl, rfl, ?_⟩
  intro h
  rw [show summarize_mean_.call (.gb demoGB) [] [] = .ok (.df demoGB.mean) from rfl,
      show summarize_mean_default (.gb demoGB) [] [] =
        .error (.notImplementedError
          ("summarize_mean is not implemented for data of type " ++
            (typeOf (Value.gb demoGB)).typeStr)) from rfl] at h
  exact Except.noConfusion h

/-- C5 (amended): dispatch walks the input's method-resolution order and
selects the implementation of the first class that has a registration —
the exact type when it is registered, otherwise the nearest registered
superclass; the default runs only when no class of the MRO is registered. -/
theorem dispatch_follows_mro (d : Dispatcher) (t tw : PyType) (f : PyFunc)
    (l₁ l₂ : List PyType) (hsplit : mro t = l₁ ++ tw :: l₂)
    (hbefore : ∀ u ∈ l₁, findReg d.registry u = none)
    (hf : findReg d.registry tw = some f) :
    d.dispatch t = f := by
  show firstImpl d.registry d.dflt (mro t) = f
  rw [hsplit]
  exact firstImpl_append d.registry d.dflt tw l₂ f hf l₁ hbefore

/-- Witness for the amended C5: for `summarize_mean` on a grouped frame the
first registered class along the MRO is `GroupBy`, and dispatch selects its
implementation. -/
theorem dispatch_follows_mro_witness :
    mro (typeOf (Value.gb demoGB)) =
      [PyType.dataFrameGroupBy] ++ PyType.groupBy :: [PyType.object] ∧
    findReg summarize_mean_.registry PyType.groupBy = some summarize_mean_GroupBy ∧
    summarize_mean_.dispatch (typeOf (Value.gb demoGB)) = summarize_mean_GroupBy := by
  refine ⟨rfl, rfl, ?_⟩
  exact dispatch_follows_mro summarize_mean_ (typeOf (Value.gb demoGB)) PyType.groupBy
    summarize_mean_GroupBy [PyType.dataFrameGroupBy] [PyType.object] rfl
    (by intro u hu; simp at hu; subst hu; rfl) rfl

end PyPipes
